import Mathlib

/-!
Shallow embedding of the gold/silver price alert dashboard
(`src/app.py`, `src/utils.py`) and verification of its behavioural
specification.

Conventions of the embedding:
* Python floats are modelled as rationals (`ℚ`); all arithmetic in the
  program is elementary (+, -, *, /) so this is exact.
* Dictionaries from the JSON payloads are modelled as association lists
  (`List (String × ℚ)` for the per-date quote maps); `dict.get` becomes
  `List.lookup`.
* The outcome of an HTTP request is modelled by `HttpResult`: either the
  call raised (network error, timeout -- `exn`) or returned a status code
  with a body.  A body that fails to parse, or misses required keys, is
  `Option.none` (accessing it raises, which the program catches).
* `datetime.now()` is passed in as an abstract day number `today : ℤ`,
  and `strftime('%Y-%m-%d')` as an abstract formatter `fmt : ℤ → String`.
* numpy's globally seeded PRNG is modelled by a state `rng : ℕ` holding
  the current seed, an abstract sampler `gauss : ℕ → ℕ → ℚ` mapping
  (state, draw index) to the standard-normal draw, `np_seed` overwriting
  the state, and `np_randn` reading draws from the state.
-/

namespace GoldAlert

/-- Direction reported by the alert evaluator (`"drop"` / `"rise"` in
`check_alerts`; Python `None` becomes `Option.none`). -/
inductive Direction where
  | drop : Direction
  | rise : Direction
deriving DecidableEq, Repr

/-- Result of an HTTP request: `exn` when `requests.get` raised
(connection error, timeout), `ok status body` otherwise. -/
inductive HttpResult (β : Type) where
  | exn : HttpResult β
  | ok : ℕ → β → HttpResult β
deriving DecidableEq, Repr

/-- The data frame built by `get_historical_data` / `generate_mock_data`:
parallel lists of dates, prices and derived high/low bands. -/
structure PriceData where
  date : List String
  price : List ℚ
  high : List ℚ
  low : List ℚ
deriving DecidableEq, Repr

/-- The record returned by `calculate_stats`.  The pandas `std()`
volatility field is irrational-valued (a square root) and is consumed
only by the display layer; no claim mentions it, so it is omitted from
the record. -/
structure Stats where
  current : ℚ
  low : ℚ
  high : ℚ
  avg : ℚ
  change : ℚ
  change_pct : ℚ
deriving DecidableEq, Repr

/-- Body of a successful `https://api.metalpriceapi.com/v1/timeframe`
response: the `success` flag and the `rates` object, a map from date
string to a map from currency-pair string to rate. -/
structure TimeframeBody where
  success : Bool
  rates : List (String × List (String × ℚ))
deriving DecidableEq, Repr

/-- Python string comparison on code points (used by `sorted`), on the
character lists of the two strings. -/
def charListLt : List Char → List Char → Bool
  | [], [] => false
  | [], _ :: _ => true
  | _ :: _, [] => false
  | a :: as, b :: bs => if a < b then true else if b < a then false else charListLt as bs

/-- Boolean string comparison backing `sorted(data['rates'].keys())`. -/
def strLtB (a b : String) : Bool := charListLt a.data b.data

/-- Insert a string into an already sorted list (ascending). -/
def insertSorted (x : String) : List String → List String
  | [] => [x]
  | y :: ys => if strLtB x y then x :: y :: ys else y :: insertSorted x ys

/-- Python `sorted` on a list of strings, ascending by code point. -/
def sortStrings : List String → List String
  | [] => []
  | x :: xs => insertSorted x (sortStrings xs)

/-- Python `str.lower`, character by character. -/
def toLowerStr (s : String) : String := String.mk (s.data.map Char.toLower)

/-- Price resolution for one date in `get_historical_data`
(src/app.py lines 112-121): prefer the direct `USD<SYMBOL>` quote; when
it is absent read the inverse `<SYMBOL>` quote with default 0 and invert
it when strictly positive, otherwise mark the date invalid (`none`). -/
def resolvePrice (symbol : String) (quotes : List (String × ℚ)) : Option ℚ :=
  match quotes.lookup ("USD" ++ symbol) with
  | some v => some v
  | none =>
    let inverse := (quotes.lookup symbol).getD 0
    if 0 < inverse then some (1 / inverse) else none

/-- The date/price extraction loop of `get_historical_data`
(src/app.py lines 110-123): iterate the dates in sorted order, resolve
each price, and keep only the dates whose price resolved (`valid_data`). -/
def parseTimeframe (symbol : String) (rates : List (String × List (String × ℚ))) :
    List (String × ℚ) :=
  let dates := sortStrings (rates.map Prod.fst)
  (dates.map fun d => (d, resolvePrice symbol ((rates.lookup d).getD []))).filterMap
    fun dp => dp.2.map fun p => (dp.1, p)

/-- `get_usd_inr_exchange_rate` (src/app.py lines 34-53).  Inputs: the
`EXCHANGERATE_API_KEY` environment value and the outcome of the HTTP
request; the body is the parsed `conversion_rates.INR` field, `none`
when the JSON is malformed or the keys are missing (which raises inside
the `try` and is caught).  The Python function returns on every path, so
the embedding is a total function. -/
def get_usd_inr_exchange_rate (api_key : Option String) (resp : HttpResult (Option ℚ)) : ℚ :=
  match api_key with
  | none => 83.5
  | some _ =>
    match resp with
    | .exn => 83.5
    | .ok status body =>
      if status = 200 then
        match body with
        | some rate => rate
        | none => 83.5
      else 83.5

/-- `np.random.seed` on the global PRNG state: the previous state is
discarded and replaced by the given seed. -/
def np_seed (n : ℕ) (_rng : ℕ) : ℕ := n

/-- `np.random.randn(count)` drawn from the current global state through
the abstract standard-normal sampler `gauss`. -/
def np_randn (gauss : ℕ → ℕ → ℚ) (count : ℕ) (rng : ℕ) : List ℚ :=
  (List.range count).map (gauss rng)

/-- Python `range(n, 0, -1)`: the list `[n, n-1, ..., 1]`. -/
def rangeDown : ℕ → List ℕ
  | 0 => []
  | n + 1 => (n + 1) :: rangeDown n

/-- `np.cumsum` with a running accumulator. -/
def cumsumFrom (acc : ℚ) : List ℚ → List ℚ
  | [] => []
  | x :: xs => (acc + x) :: cumsumFrom (acc + x) xs

/-- `np.cumsum`: list of partial sums. -/
def cumsum (l : List ℚ) : List ℚ := cumsumFrom 0 l

/-- The `base_prices` dictionary of `generate_mock_data`. -/
def base_prices : List (String × ℚ) := [("gold", 2050), ("silver", 24.5)]

/-- Base price selection of `generate_mock_data` (src/app.py lines
178-184): the per-metal base with default 2050, multiplied by the fixed
fallback rate 83.5 when the currency is INR. -/
def mockBase (metal currency : String) : ℚ :=
  let base0 := (base_prices.lookup (toLowerStr metal)).getD 2050
  if currency = "INR" then base0 * 83.5 else base0

/-- `generate_mock_data` (src/app.py lines 176-197).  `gauss` is the
abstract standard-normal sampler of the numpy PRNG, `fmt` abstracts
`strftime('%Y-%m-%d')`, `today` is `datetime.now()` as a day number and
`rng` is the incoming global PRNG state, overwritten by
`np.random.seed(42)` before the draws. -/
def generate_mock_data (gauss : ℕ → ℕ → ℚ) (fmt : ℤ → String) (today : ℤ)
    (metal currency : String) (rng : ℕ) : PriceData :=
  let base := mockBase metal currency
  let dates := (rangeDown 4).map fun i => fmt (today - (i : ℤ))
  let rng1 := np_seed 42 rng
  let steps := (np_randn gauss 4 rng1).map (· * (base * 0.01))
  let prices := (cumsum steps).map (base + ·)
  ⟨dates, prices, prices.map (· * 1.015), prices.map (· * 0.985)⟩

/-- Symbol selection of `get_historical_data` (src/app.py line 93):
`"XAU" if metal.lower() == "gold" else "XAG"`. -/
def symbolOf (metal : String) : String :=
  if toLowerStr metal = "gold" then "XAU" else "XAG"

/-- `get_historical_data` (src/app.py lines 79-150).  Inputs: the metal
and currency selection, the `METALPRICEAPI_KEY` environment value, the
outcome of the timeframe HTTP request (body `none` when the JSON fails
to parse, which raises inside the `try` and is caught), the value
returned by `get_usd_inr_exchange_rate` for the INR branch, and the
`PriceData` that `generate_mock_data` produces for this call (every
failure path returns it). -/
def get_historical_data (metal currency : String) (api_key : Option String)
    (resp : HttpResult (Option TimeframeBody)) (exchange_rate : ℚ) (mock : PriceData) :
    PriceData :=
  match api_key with
  | none => mock
  | some _ =>
    match resp with
    | .exn => mock
    | .ok status body =>
      if status = 200 then
        match body with
        | none => mock
        | some data =>
          if data.success then
            let valid := parseTimeframe (symbolOf metal) data.rates
            if valid = [] then mock
            else
              let prices0 := valid.map Prod.snd
              let prices := if currency = "INR" then prices0.map (· * exchange_rate) else prices0
              ⟨valid.map Prod.fst, prices, prices.map (· * 1.015), prices.map (· * 0.985)⟩
          else mock
      else mock

/-- Minimum of a list of rationals (`pandas.Series.min` on a non-empty
column); 0 on the empty list, which the caller never passes. -/
def listMin : List ℚ → ℚ
  | [] => 0
  | p :: ps => ps.foldl min p

/-- Maximum of a list of rationals (`pandas.Series.max`). -/
def listMax : List ℚ → ℚ
  | [] => 0
  | p :: ps => ps.foldl max p

/-- `calculate_stats` (src/app.py lines 199-211) on the price column.
`df['price'].iloc[0]` / `iloc[-1]` / `min()` / `max()` / `mean()` become
head, last, minimum, maximum and sum/length of the list; the caller
always supplies a non-empty series. -/
def calculate_stats (prices : List ℚ) : Stats :=
  let first := prices.headD 0
  let last := (prices.getLast?).getD 0
  ⟨last, listMin prices, listMax prices, prices.sum / prices.length, last - first,
   if first ≠ 0 then (last - first) / first * 100 else 0⟩

/-- `get_trend` (src/app.py lines 213-224). -/
def get_trend (change_pct : ℚ) : String × String :=
  if change_pct > 2 then ("📈 Strong Upward", "green")
  else if change_pct > 0.5 then ("↗️ Upward", "lightgreen")
  else if change_pct < -2 then ("📉 Strong Downward", "red")
  else if change_pct < -0.5 then ("↘️ Downward", "lightcoral")
  else ("➡️ Stable", "gray")

/-- `check_alerts` (src/app.py lines 285-296).  Of the `stats` record
only `change_pct` is read (and `metal` is never used in the decision),
so the evaluator takes the percent change directly. -/
def check_alerts (alert_type : String) (threshold change_pct : ℚ) : Bool × Option Direction :=
  if alert_type = "Price Drop" ∧ change_pct ≤ -threshold then (true, some .drop)
  else if alert_type = "Price Rise" ∧ change_pct ≥ threshold then (true, some .rise)
  else if alert_type = "Both" then
    if change_pct ≤ -threshold then (true, some .drop)
    else if change_pct ≥ threshold then (true, some .rise)
    else (false, none)
  else (false, none)

/-- The high/low band invariant of a `PriceData` frame: the high and
low columns are the price column scaled by 1.015 and 0.985, and at
every index with a nonnegative price the price lies between the two
bands (out-of-range indices read the default 0 on all three columns,
for which the bounds hold trivially). -/
def bandProp (d : PriceData) : Prop :=
  d.high = d.price.map (· * 1.015) ∧ d.low = d.price.map (· * 0.985) ∧
  ∀ i : ℕ, 0 ≤ d.price.getD i 0 →
    d.low.getD i 0 ≤ d.price.getD i 0 ∧ d.price.getD i 0 ≤ d.high.getD i 0

/-- One record of `alert_history.json` (src/utils.py lines 59-64). -/
structure AlertRecord where
  metal : String
  price : ℚ
  alert_type : String
  timestamp : String
deriving DecidableEq, Repr

/-- `save_alert_history` (src/utils.py lines 48-72).  The file system is
modelled as `Option (List AlertRecord)`: `none` when
`alert_history.json` does not exist, `some l` when it holds the JSON
array `l`.  The function reads the whole array (missing file read as
`[]`), appends one record, writes the whole array back and returns
`true`. -/
def save_alert_history (file : Option (List AlertRecord)) (r : AlertRecord) :
    Option (List AlertRecord) × Bool :=
  let history := file.getD []
  (some (history ++ [r]), true)

/-- `load_alert_history` (src/utils.py lines 74-85): the stored array,
or `[]` when the file does not exist. -/
def load_alert_history (file : Option (List AlertRecord)) : List AlertRecord :=
  file.getD []

/-- Sequential appends: run `save_alert_history` once per record, left
to right, starting from the given file state. -/
def appendAll (file : Option (List AlertRecord)) (rs : List AlertRecord) :
    Option (List AlertRecord) :=
  rs.foldl (fun f r => (save_alert_history f r).1) file

/-! ## Helper lemmas -/

/-- A `min`-fold over a list either returns the seed or one of the
elements. -/
lemma foldl_min_mem (l : List ℚ) (a : ℚ) : l.foldl min a = a ∨ l.foldl min a ∈ l := by
  induction l generalizing a with
  | nil => exact Or.inl rfl
  | cons x xs ih =>
    rcases ih (min a x) with h | h
    · rcases min_choice a x with hm | hm
      · exact Or.inl (by rw [List.foldl_cons, h, hm])
      · exact Or.inr (by rw [List.foldl_cons, h, hm]; exact List.mem_cons_self x xs)
    · exact Or.inr (List.mem_cons_of_mem x h)

/-- A `min`-fold is below its seed and below every element. -/
lemma foldl_min_le (l : List ℚ) (a : ℚ) :
    l.foldl min a ≤ a ∧ ∀ x ∈ l, l.foldl min a ≤ x := by
  induction l generalizing a with
  | nil => exact ⟨le_refl a, by simp⟩
  | cons y ys ih =>
    have h := ih (min a y)
    refine ⟨le_trans h.1 (min_le_left a y), ?_⟩
    intro x hx
    rcases List.mem_cons.mp hx with rfl | hx
    · exact le_trans h.1 (min_le_right a x)
    · exact h.2 x hx

/-- A `max`-fold over a list either returns the seed or one of the
elements. -/
lemma foldl_max_mem (l : List ℚ) (a : ℚ) : l.foldl max a = a ∨ l.foldl max a ∈ l := by
  induction l generalizing a with
  | nil => exact Or.inl rfl
  | cons x xs ih =>
    rcases ih (max a x) with h | h
    · rcases max_choice a x with hm | hm
      · exact Or.inl (by rw [List.foldl_cons, h, hm])
      · exact Or.inr (by rw [List.foldl_cons, h, hm]; exact List.mem_cons_self x xs)
    · exact Or.inr (List.mem_cons_of_mem x h)

/-- A `max`-fold is above its seed and above every element. -/
lemma foldl_max_ge (l : List ℚ) (a : ℚ) :
    a ≤ l.foldl max a ∧ ∀ x ∈ l, x ≤ l.foldl max a := by
  induction l generalizing a with
  | nil => exact ⟨le_refl a, by simp⟩
  | cons y ys ih =>
    have h := ih (max a y)
    refine ⟨le_trans (le_max_left a y) h.1, ?_⟩
    intro x hx
    rcases List.mem_cons.mp hx with rfl | hx
    · exact le_trans (le_max_right a x) h.1
    · exact h.2 x hx

/-- `listMin` of a non-empty list is an element of it. -/
lemma listMin_mem (p : ℚ) (ps : List ℚ) : listMin (p :: ps) ∈ p :: ps := by
  rcases foldl_min_mem ps p with h | h
  · rw [listMin, h]; exact List.mem_cons_self p ps
  · exact List.mem_cons_of_mem p (by rw [listMin]; exact h)

/-- `listMin` of a non-empty list is a lower bound. -/
lemma listMin_le (p : ℚ) (ps : List ℚ) : ∀ x ∈ p :: ps, listMin (p :: ps) ≤ x := by
  intro x hx
  rcases List.mem_cons.mp hx with rfl | hx
  · exact (foldl_min_le ps x).1
  · exact (foldl_min_le ps p).2 x hx

/-- `listMax` of a non-empty list is an element of it. -/
lemma listMax_mem (p : ℚ) (ps : List ℚ) : listMax (p :: ps) ∈ p :: ps := by
  rcases foldl_max_mem ps p with h | h
  · rw [listMax, h]; exact List.mem_cons_self p ps
  · exact List.mem_cons_of_mem p (by rw [listMax]; exact h)

/-- `listMax` of a non-empty list is an upper bound. -/
lemma listMax_ge (p : ℚ) (ps : List ℚ) : ∀ x ∈ p :: ps, x ≤ listMax (p :: ps) := by
  intro x hx
  rcases List.mem_cons.mp hx with rfl | hx
  · exact (foldl_max_ge ps x).1
  · exact (foldl_max_ge ps p).2 x hx

/-! ## C2: alert evaluator -/

/-- C2: the alert evaluator fires with direction `drop` in mode
`"Price Drop"` exactly when `change_pct ≤ -threshold`, fires with
direction `rise` in mode `"Price Rise"` exactly when
`change_pct ≥ threshold`, and in mode `"Both"` checks the drop condition
first and then the rise condition; otherwise it returns not-fired with
no direction.  For mode `"Both"` and threshold 5: `change_pct = -5`
fires with direction `drop`, `change_pct = 5` fires with direction
`rise`, and `change_pct = -4.9` does not fire. -/
theorem check_alerts_spec (threshold change_pct : ℚ) :
    (check_alerts "Price Drop" threshold change_pct = (true, some .drop) ↔
      change_pct ≤ -threshold) ∧
    (check_alerts "Price Rise" threshold change_pct = (true, some .rise) ↔
      threshold ≤ change_pct) ∧
    (change_pct ≤ -threshold →
      check_alerts "Both" threshold change_pct = (true, some .drop)) ∧
    (¬ change_pct ≤ -threshold → threshold ≤ change_pct →
      check_alerts "Both" threshold change_pct = (true, some .rise)) ∧
    (¬ change_pct ≤ -threshold → ¬ threshold ≤ change_pct →
      check_alerts "Both" threshold change_pct = (false, none)) ∧
    (¬ change_pct ≤ -threshold →
      check_alerts "Price Drop" threshold change_pct = (false, none)) ∧
    (¬ threshold ≤ change_pct →
      check_alerts "Price Rise" threshold change_pct = (false, none)) ∧
    check_alerts "Both" 5 (-5) = (true, some .drop) ∧
    check_alerts "Both" 5 5 = (true, some .rise) ∧
    check_alerts "Both" 5 (-4.9) = (false, none) := by
  have hdr : ("Price Drop" : String) ≠ "Price Rise" := by decide
  have hdb : ("Price Drop" : String) ≠ "Both" := by decide
  have hrd : ("Price Rise" : String) ≠ "Price Drop" := by decide
  have hrb : ("Price Rise" : String) ≠ "Both" := by decide
  have hbd : ("Both" : String) ≠ "Price Drop" := by decide
  have hbr : ("Both" : String) ≠ "Price Rise" := by decide
  refine ⟨?_, ?_, ?_, ?_, ?_, ?_, ?_, ?_, ?_, ?_⟩
  · by_cases h : change_pct ≤ -threshold <;> simp [check_alerts, h, hdr, hdb]
  · by_cases h : threshold ≤ change_pct <;> simp [check_alerts, h, hrd, hrb]
  · intro h; simp [check_alerts, h, hbd, hbr]
  · intro h h2; simp [check_alerts, h, h2, hbd, hbr]
  · intro h h2; simp [check_alerts, h, h2, hbd, hbr]
  · intro h; simp [check_alerts, h, hdr, hdb]
  · intro h; simp [check_alerts, h, hrd, hrb]
  · have h : (-5 : ℚ) ≤ -5 := le_refl _
    simp [check_alerts, h, hbd, hbr]
  · have h : ¬ (5 : ℚ) ≤ -5 := by norm_num
    have h2 : (5 : ℚ) ≤ 5 := le_refl _
    simp [check_alerts, h, h2, hbd, hbr]
  · have h : ¬ (-4.9 : ℚ) ≤ -5 := by norm_num
    have h2 : ¬ (5 : ℚ) ≤ -4.9 := by norm_num
    simp [check_alerts, h, h2, hbd, hbr]

/-- C2 witness: the theorem applied at threshold 5 and change -5, with
the drop hypothesis discharged concretely. -/
theorem check_alerts_spec_witness : check_alerts "Both" 5 (-5) = (true, some .drop) :=
  (check_alerts_spec 5 (-5)).2.2.1 (le_refl _)

/-! ## C3: trend classifier -/

/-- C3: the trend classifier assigns exactly one of five labels via
ordered strict comparisons: `change_pct > 2` gives Strong Upward, else
`> 0.5` Upward, else `< -2` Strong Downward, else `< -0.5` Downward,
else Stable; the boundary inputs 2, 0.5, -0.5 and -2 fall to the less
extreme branch. -/
theorem get_trend_spec (x : ℚ) :
    (get_trend x = ("📈 Strong Upward", "green") ↔ 2 < x) ∧
    (get_trend x = ("↗️ Upward", "lightgreen") ↔ 0.5 < x ∧ x ≤ 2) ∧
    (get_trend x = ("📉 Strong Downward", "red") ↔ x < -2) ∧
    (get_trend x = ("↘️ Downward", "lightcoral") ↔ -2 ≤ x ∧ x < -0.5) ∧
    (get_trend x = ("➡️ Stable", "gray") ↔ -0.5 ≤ x ∧ x ≤ 0.5) ∧
    get_trend 2 = ("↗️ Upward", "lightgreen") ∧
    get_trend 0.5 = ("➡️ Stable", "gray") ∧
    get_trend (-0.5) = ("➡️ Stable", "gray") ∧
    get_trend (-2) = ("↘️ Downward", "lightcoral") := by
  have hb1 : get_trend 2 = ("↗️ Upward", "lightgreen") := by norm_num [get_trend]
  have hb2 : get_trend 0.5 = ("➡️ Stable", "gray") := by norm_num [get_trend]
  have hb3 : get_trend (-0.5) = ("➡️ Stable", "gray") := by norm_num [get_trend]
  have hb4 : get_trend (-2) = ("↘️ Downward", "lightcoral") := by norm_num [get_trend]
  refine ⟨?_, ?_, ?_, ?_, ?_, hb1, hb2, hb3, hb4⟩ <;>
    · unfold get_trend
      split_ifs with h1 h2 h3 h4 <;>
        · constructor
          · intro he
            first
            | (constructor <;> linarith)
            | linarith
            | (exfalso
               have : False := by
                 have hpair := he
                 simp only [Prod.mk.injEq] at hpair
                 exact absurd hpair.1 (by decide)
               exact this)
          · intro hr
            first
            | rfl
            | (exfalso; linarith)

/-! ## C4: statistics engine -/

/-- C4: on every non-empty price series, `current` is the last price,
`low` and `high` are the minimum and maximum of the prices, `avg` is
their mean, `change` is last minus first, and `change_pct` is
`change / price[0] * 100` except that it is 0 when `price[0] = 0`. -/
theorem calculate_stats_spec (prices : List ℚ) (h : prices ≠ []) :
    (calculate_stats prices).current = prices.getLast h ∧
    ((calculate_stats prices).low ∈ prices ∧
      ∀ x ∈ prices, (calculate_stats prices).low ≤ x) ∧
    ((calculate_stats prices).high ∈ prices ∧
      ∀ x ∈ prices, x ≤ (calculate_stats prices).high) ∧
    (calculate_stats prices).avg = prices.sum / prices.length ∧
    (calculate_stats prices).change = prices.getLast h - prices.headD 0 ∧
    (prices.headD 0 ≠ 0 →
      (calculate_stats prices).change_pct =
        (calculate_stats prices).change / prices.headD 0 * 100) ∧
    (prices.headD 0 = 0 → (calculate_stats prices).change_pct = 0) := by
  obtain ⟨p, ps, rfl⟩ := List.exists_cons_of_ne_nil h
  have hlast : ((p :: ps).getLast?).getD 0 = (p :: ps).getLast h := by
    rw [List.getLast?_eq_getLast _ h]; rfl
  refine ⟨?_, ⟨listMin_mem p ps, listMin_le p ps⟩, ⟨listMax_mem p ps, listMax_ge p ps⟩,
    rfl, ?_, ?_, ?_⟩
  · exact hlast
  · show ((p :: ps).getLast?).getD 0 - (p :: ps).headD 0 = _
    rw [hlast]
  · intro hp
    show (if (p :: ps).headD 0 ≠ 0 then _ else _) = _
    rw [if_pos hp]
    show _ = (((p :: ps).getLast?).getD 0 - (p :: ps).headD 0) / _ * _
    rw [hlast]
  · intro hp
    show (if (p :: ps).headD 0 ≠ 0 then _ else _) = 0
    rw [if_neg (by simpa using hp)]

/-- C4 witness: the current-price component of the theorem applied to
the concrete series `[1, 2]`. -/
theorem calculate_stats_spec_witness :
    (calculate_stats [1, 2]).current = ([1, 2] : List ℚ).getLast (by decide) :=
  (calculate_stats_spec [1, 2] (by decide)).1

/-! ## C5: the zero-percent-change boundary -/

/-- C5 counterexample: on the series `[1, 1]` the computed `change_pct`
is 0 while the first price is 1 ≠ 0, so "`change_pct = 0` exactly when
`price[0] = 0`" fails in the if-and-only-if direction claimed. -/
theorem change_pct_zero_counterexample :
    (calculate_stats [1, 1]).change_pct = 0 ∧ ¬ (([1, 1] : List ℚ).headD 0 = 0) := by
  constructor
  · show (if (1 : ℚ) ≠ 0 then ((1 : ℚ) - 1) / 1 * 100 else 0) = 0
    norm_num
  · decide

/-- C5 amended: on every non-empty price series, `change_pct` is 0
exactly when the first price is 0 or the last price equals the first
(the guard maps a zero first price to 0, and otherwise the quotient
vanishes exactly when the absolute change does). -/
theorem change_pct_zero_iff (prices : List ℚ) (h : prices ≠ []) :
    (calculate_stats prices).change_pct = 0 ↔
      (prices.headD 0 = 0 ∨ prices.getLast h = prices.headD 0) := by
  have hlast : (prices.getLast?).getD 0 = prices.getLast h := by
    rw [List.getLast?_eq_getLast _ h]; rfl
  by_cases hp : prices.headD 0 = 0
  · constructor
    · intro _; exact Or.inl hp
    · intro _
      show (if prices.headD 0 ≠ 0 then _ else _) = 0
      rw [if_neg (by simpa using hp)]
  · have hcp : (calculate_stats prices).change_pct =
        (prices.getLast h - prices.headD 0) / prices.headD 0 * 100 := by
      show (if prices.headD 0 ≠ 0 then ((prices.getLast?).getD 0 - prices.headD 0) /
          prices.headD 0 * 100 else 0) = _
      rw [if_pos hp, hlast]
    rw [hcp]
    constructor
    · intro he
      rcases mul_eq_zero.mp he with he | he
      · rcases div_eq_zero_iff.mp he with he | he
        · exact Or.inr (by linarith [sub_eq_zero.mp he])
        · exact absurd he hp
      · exact absurd he (by norm_num)
    · rintro (he | he)
      · exact absurd he hp
      · rw [he, sub_self, zero_div, zero_mul]

/-- C5 amendment witness: the amended equivalence applied to the
concrete series `[2, 3]`. -/
theorem change_pct_zero_iff_witness :
    (calculate_stats [2, 3]).change_pct = 0 ↔
      (([2, 3] : List ℚ).headD 0 = 0 ∨
        ([2, 3] : List ℚ).getLast (by decide) = ([2, 3] : List ℚ).headD 0) :=
  change_pct_zero_iff [2, 3] (by decide)

/-! ## C6: exchange-rate provider -/

/-- C6: the exchange-rate provider returns the fixed fallback 83.5 on
every failure path — missing credential, request exception, non-200
status, malformed payload — and otherwise returns the parsed
`conversion_rates.INR` rate.  The embedding is a total function, which
is the shallow form of "never raises to its caller". -/
theorem exchange_rate_spec (api_key : Option String) (resp : HttpResult (Option ℚ)) :
    (api_key = none → get_usd_inr_exchange_rate api_key resp = 83.5) ∧
    (resp = .exn → get_usd_inr_exchange_rate api_key resp = 83.5) ∧
    (∀ status body, resp = .ok status body → status ≠ 200 →
      get_usd_inr_exchange_rate api_key resp = 83.5) ∧
    (∀ status, resp = .ok status none → get_usd_inr_exchange_rate api_key resp = 83.5) ∧
    (∀ k rate, api_key = some k → resp = .ok 200 (some rate) →
      get_usd_inr_exchange_rate api_key resp = rate) := by
  refine ⟨?_, ?_, ?_, ?_, ?_⟩
  · rintro rfl; rfl
  · rintro rfl; cases api_key <;> rfl
  · rintro status body rfl hs
    cases api_key with
    | none => rfl
    | some k => simp [get_usd_inr_exchange_rate, hs]
  · rintro status rfl
    cases api_key with
    | none => rfl
    | some k =>
      show (if status = 200 then (83.5 : ℚ) else 83.5) = 83.5
      split_ifs <;> rfl
  · rintro k rate rfl rfl; rfl

/-- C6 witness: the theorem applied at a missing credential. -/
theorem exchange_rate_spec_witness : get_usd_inr_exchange_rate none .exn = 83.5 :=
  (exchange_rate_spec none .exn).1 rfl

/-! ## C9: mock generator determinism -/

/-- C9: two successive calls of the mock generator with identical
(metal, currency) arguments in the same process produce identical date
and price sequences: `np.random.seed(42)` overwrites the incoming
global PRNG state on every call (`np_seed` discards `rng`), so the
output is independent of the PRNG state left behind by any earlier
call. -/
theorem generate_mock_data_deterministic (gauss : ℕ → ℕ → ℚ) (fmt : ℤ → String)
    (today : ℤ) (metal currency : String) (rng rng' : ℕ) :
    generate_mock_data gauss fmt today metal currency rng =
      generate_mock_data gauss fmt today metal currency rng' := rfl

/-! ## C10: alert-history append round-trip -/

/-- Appending a batch of records to a file state holding the array `l`
appends them on the right, in order. -/
lemma appendAll_some (rs : List AlertRecord) :
    ∀ l : List AlertRecord, appendAll (some l) rs = some (l ++ rs) := by
  induction rs with
  | nil => intro l; simp [appendAll]
  | cons r rs ih =>
    intro l
    show appendAll (some (l ++ [r])) rs = _
    rw [ih (l ++ [r])]
    simp

/-- C10: appending N alert records sequentially to an initially-missing
history file (read as the empty array) and reloading yields exactly
those N records in insertion order; each append reads the whole stored
array, appends one record and writes the whole array back (which is how
`save_alert_history` is defined). -/
theorem alert_history_roundtrip (rs : List AlertRecord) :
    load_alert_history (appendAll none rs) = rs ∧
    (load_alert_history (appendAll none rs)).length = rs.length := by
  have key : load_alert_history (appendAll none rs) = rs := by
    cases rs with
    | nil => rfl
    | cons r rs =>
      show load_alert_history (appendAll (some ([] ++ [r])) rs) = _
      rw [appendAll_some rs ([] ++ [r])]
      simp [load_alert_history]
  exact ⟨key, by rw [key]⟩

/-! ## C8: mock generator dates and prices -/

/-- C8 counterexample: with `today = 0` and `strftime` instantiated to
`toString`, the last date the mock generator produces is the string for
day -1 (yesterday), not the string for day 0 (today), so the claim that
the 4 dates end at "today" fails. -/
theorem mock_dates_end_counterexample :
    ((generate_mock_data (fun _ _ => 0) (fun z => toString z) 0 "gold" "USD" 0).date.getLast? =
      some (toString (-1 : ℤ))) ∧ toString (-1 : ℤ) ≠ toString (0 : ℤ) := by
  constructor
  · rfl
  · decide

/-- C8 amended: the mock generator produces exactly 4 consecutive
calendar dates in ascending order ending at the day before "today"
(the Python loop runs over `range(days, 0, -1)`, so the offsets are
4, 3, 2, 1 and today itself is excluded), with price = base plus the
cumulative sum of the `N(0,1) * base * 0.01` steps, the i-th draw being
taken from the PRNG state freshly seeded with 42. -/
theorem generate_mock_data_spec (gauss : ℕ → ℕ → ℚ) (fmt : ℤ → String) (today : ℤ)
    (metal currency : String) (rng : ℕ) :
    (generate_mock_data gauss fmt today metal currency rng).date =
      [fmt (today - 4), fmt (today - 3), fmt (today - 2), fmt (today - 1)] ∧
    (generate_mock_data gauss fmt today metal currency rng).price =
      [mockBase metal currency + gauss 42 0 * (mockBase metal currency * 0.01),
       mockBase metal currency + (gauss 42 0 * (mockBase metal currency * 0.01) +
         gauss 42 1 * (mockBase metal currency * 0.01)),
       mockBase metal currency + (gauss 42 0 * (mockBase metal currency * 0.01) +
         gauss 42 1 * (mockBase metal currency * 0.01) +
         gauss 42 2 * (mockBase metal currency * 0.01)),
       mockBase metal currency + (gauss 42 0 * (mockBase metal currency * 0.01) +
         gauss 42 1 * (mockBase metal currency * 0.01) +
         gauss 42 2 * (mockBase metal currency * 0.01) +
         gauss 42 3 * (mockBase metal currency * 0.01))] := by
  constructor
  · rfl
  · show [mockBase metal currency + (0 + gauss 42 0 * (mockBase metal currency * 0.01)),
      mockBase metal currency + (0 + gauss 42 0 * (mockBase metal currency * 0.01) +
        gauss 42 1 * (mockBase metal currency * 0.01)),
      mockBase metal currency + (0 + gauss 42 0 * (mockBase metal currency * 0.01) +
        gauss 42 1 * (mockBase metal currency * 0.01) +
        gauss 42 2 * (mockBase metal currency * 0.01)),
      mockBase metal currency + (0 + gauss 42 0 * (mockBase metal currency * 0.01) +
        gauss 42 1 * (mockBase metal currency * 0.01) +
        gauss 42 2 * (mockBase metal currency * 0.01) +
        gauss 42 3 * (mockBase metal currency * 0.01))] = _
    simp only [List.cons.injEq, and_true]
    exact ⟨by ring, by ring, by ring, by ring⟩

/-! ## Successful-path reduction of the historical provider -/

/-- Reduction of `get_historical_data` on the fully successful path:
credential present, request returned status 200 with a parsed body,
success flag set, and at least one date resolved to a valid price. -/
lemma get_historical_data_ok (metal currency ak : String) (b : TimeframeBody)
    (er : ℚ) (mock : PriceData)
    (hs : b.success = true)
    (hv : parseTimeframe (symbolOf metal) b.rates ≠ []) :
    get_historical_data metal currency (some ak) (.ok 200 (some b)) er mock =
      (let valid := parseTimeframe (symbolOf metal) b.rates
       let prices0 := valid.map Prod.snd
       let prices := if currency = "INR" then prices0.map (· * er) else prices0
       (⟨valid.map Prod.fst, prices, prices.map (· * 1.015),
         prices.map (· * 0.985)⟩ : PriceData)) := by
  show (if b.success = true then
      (if parseTimeframe (symbolOf metal) b.rates = [] then mock
       else
        (⟨(parseTimeframe (symbolOf metal) b.rates).map Prod.fst,
          if currency = "INR"
            then ((parseTimeframe (symbolOf metal) b.rates).map Prod.snd).map (· * er)
            else (parseTimeframe (symbolOf metal) b.rates).map Prod.snd,
          (if currency = "INR"
            then ((parseTimeframe (symbolOf metal) b.rates).map Prod.snd).map (· * er)
            else (parseTimeframe (symbolOf metal) b.rates).map Prod.snd).map (· * 1.015),
          (if currency = "INR"
            then ((parseTimeframe (symbolOf metal) b.rates).map Prod.snd).map (· * er)
            else (parseTimeframe (symbolOf metal) b.rates).map Prod.snd).map (· * 0.985)⟩ :
          PriceData))
    else mock) = _
  rw [if_pos hs, if_neg hv]

/-! ## C1: historical price resolution -/

/-- C1: for every accepted timeframe payload (status 200, success flag
set), each date's price is resolved by preferring the direct `USDXAU`
quote; when that key is absent the inverse `XAU` quote is inverted
provided it is strictly positive, and otherwise the date is dropped.
With `USDXAU` present for all 4 dates (given here in scrambled payload
order) the output equals the direct quotes in ascending date order with
the derived bands; with only positive inverse `XAU` quotes the output
price list is `1/quote` elementwise; a date whose quotes are missing or
whose inverse quote is 0 is dropped entirely. -/
theorem historical_resolution (ak : String) (er : ℚ) (mock : PriceData) (q1 q2 q3 q4 : ℚ)
    (h1 : 0 < q1) (h2 : 0 < q2) (h3 : 0 < q3) (h4 : 0 < q4) :
    (∀ (quotes : List (String × ℚ)) (v : ℚ),
      quotes.lookup "USDXAU" = some v → resolvePrice "XAU" quotes = some v) ∧
    (∀ quotes : List (String × ℚ), quotes.lookup "USDXAU" = none →
      (0 < (quotes.lookup "XAU").getD 0 →
        resolvePrice "XAU" quotes = some (1 / (quotes.lookup "XAU").getD 0)) ∧
      (¬ 0 < (quotes.lookup "XAU").getD 0 → resolvePrice "XAU" quotes = none)) ∧
    (get_historical_data "gold" "USD" (some ak)
        (.ok 200 (some ⟨true,
          [("2024-01-03", [("USDXAU", q3)]), ("2024-01-01", [("USDXAU", q1)]),
           ("2024-01-04", [("USDXAU", q4)]), ("2024-01-02", [("USDXAU", q2)])]⟩)) er mock =
      ⟨["2024-01-01", "2024-01-02", "2024-01-03", "2024-01-04"],
       [q1, q2, q3, q4],
       [q1 * 1.015, q2 * 1.015, q3 * 1.015, q4 * 1.015],
       [q1 * 0.985, q2 * 0.985, q3 * 0.985, q4 * 0.985]⟩) ∧
    ((get_historical_data "gold" "USD" (some ak)
        (.ok 200 (some ⟨true,
          [("2024-01-01", [("XAU", q1)]), ("2024-01-02", [("XAU", q2)]),
           ("2024-01-03", [("XAU", q3)]), ("2024-01-04", [("XAU", q4)])]⟩)) er mock).price =
      [1 / q1, 1 / q2, 1 / q3, 1 / q4]) ∧
    (parseTimeframe "XAU"
        [("2024-01-01", [("USDXAU", q1)]), ("2024-01-02", [("XAU", 0)]),
         ("2024-01-03", [])] =
      [("2024-01-01", q1)]) := by
  have happ : ("USD" ++ "XAU" : String) = "USDXAU" := rfl
  have hres : ∀ q : ℚ, 0 < q → resolvePrice "XAU" [("XAU", q)] = some (1 / q) := by
    intro q hq
    show (if 0 < q then some (1 / q) else none) = some (1 / q)
    rw [if_pos hq]
  refine ⟨?_, ?_, ?_, ?_, ?_⟩
  · intro quotes v hq
    simp only [resolvePrice, happ, hq]
  · intro quotes hq
    constructor
    · intro hpos
      simp only [resolvePrice, happ, hq]
      rw [if_pos hpos]
    · intro hneg
      simp only [resolvePrice, happ, hq]
      rw [if_neg hneg]
  · rfl
  · have hparse : parseTimeframe "XAU"
        [("2024-01-01", [("XAU", q1)]), ("2024-01-02", [("XAU", q2)]),
         ("2024-01-03", [("XAU", q3)]), ("2024-01-04", [("XAU", q4)])] =
        [("2024-01-01", 1 / q1), ("2024-01-02", 1 / q2), ("2024-01-03", 1 / q3),
         ("2024-01-04", 1 / q4)] := by
      have hexpand : parseTimeframe "XAU"
          [("2024-01-01", [("XAU", q1)]), ("2024-01-02", [("XAU", q2)]),
           ("2024-01-03", [("XAU", q3)]), ("2024-01-04", [("XAU", q4)])] =
          List.filterMap (fun dp : String × Option ℚ => dp.2.map fun p => (dp.1, p))
            [("2024-01-01", resolvePrice "XAU" [("XAU", q1)]),
             ("2024-01-02", resolvePrice "XAU" [("XAU", q2)]),
             ("2024-01-03", resolvePrice "XAU" [("XAU", q3)]),
             ("2024-01-04", resolvePrice "XAU" [("XAU", q4)])] := rfl
      rw [hexpand, hres q1 h1, hres q2 h2, hres q3 h3, hres q4 h4]
      rfl
    have hsym : symbolOf "gold" = "XAU" := rfl
    have hv : parseTimeframe (symbolOf "gold")
        [("2024-01-01", [("XAU", q1)]), ("2024-01-02", [("XAU", q2)]),
         ("2024-01-03", [("XAU", q3)]), ("2024-01-04", [("XAU", q4)])] ≠ [] := by
      rw [hsym, hparse]; simp
    rw [get_historical_data_ok "gold" "USD" ak _ er mock rfl hv]
    simp only [hsym, hparse]
    rfl
  · rfl

/-- C1 witness: the direct-quote conjunct of the theorem at the
concrete quotes 1, 2, 3, 4, with the positivity hypotheses discharged
concretely. -/
theorem historical_resolution_witness :
    get_historical_data "gold" "USD" (some "k")
        (.ok 200 (some ⟨true,
          [("2024-01-03", [("USDXAU", 3)]), ("2024-01-01", [("USDXAU", 1)]),
           ("2024-01-04", [("USDXAU", 4)]), ("2024-01-02", [("USDXAU", 2)])]⟩)) 1
        ⟨[], [], [], []⟩ =
      ⟨["2024-01-01", "2024-01-02", "2024-01-03", "2024-01-04"],
       [1, 2, 3, 4],
       [1 * 1.015, 2 * 1.015, 3 * 1.015, 4 * 1.015],
       [1 * 0.985, 2 * 0.985, 3 * 0.985, 4 * 0.985]⟩ :=
  (historical_resolution "k" 1 ⟨[], [], [], []⟩ 1 2 3 4
    (by decide) (by decide) (by decide) (by decide)).2.2.1

/-! ## C7: the high/low band invariant -/

/-- C7 counterexample: a crafted accepted payload carrying the negative
direct quote `USDXAU = -1` produces the price series `[-1]` with low
band `-1 * 0.985 = -0.985`, which lies strictly above the price, so the
claimed invariant `low[i] ≤ price[i] ≤ high[i]` fails at index 0 for a
series the system actually produces. -/
theorem band_invariant_counterexample :
    ¬ ((get_historical_data "gold" "USD" (some "k")
          (.ok 200 (some ⟨true, [("2024-01-01", [("USDXAU", -1)])]⟩)) 1
          ⟨[], [], [], []⟩).low.getD 0 0 ≤
        (get_historical_data "gold" "USD" (some "k")
          (.ok 200 (some ⟨true, [("2024-01-01", [("USDXAU", -1)])]⟩)) 1
          ⟨[], [], [], []⟩).price.getD 0 0) := by
  have he : get_historical_data "gold" "USD" (some "k")
      (.ok 200 (some ⟨true, [("2024-01-01", [("USDXAU", -1)])]⟩)) 1
      ⟨[], [], [], []⟩ =
      ⟨["2024-01-01"], [-1], [(-1) * 1.015], [(-1) * 0.985]⟩ := rfl
  rw [he]
  simp only [List.getD_cons_zero]
  norm_num

/-- Reading an index of a scaled list: out-of-range indices read the
default 0 on both sides. -/
lemma getD_map_mul (l : List ℚ) (c : ℚ) : ∀ i : ℕ, (l.map (· * c)).getD i 0 = l.getD i 0 * c := by
  induction l with
  | nil => intro i; simp
  | cons x xs ih =>
    intro i
    cases i with
    | zero => simp
    | succ n => simpa using ih n

/-- Any frame whose high/low columns are the ±1.5% scalings of its
price column satisfies `bandProp`. -/
lemma bandProp_bands (ds : List String) (ps : List ℚ) :
    bandProp ⟨ds, ps, ps.map (· * 1.015), ps.map (· * 0.985)⟩ := by
  refine ⟨rfl, rfl, ?_⟩
  intro i hp
  have hp' : 0 ≤ ps.getD i 0 := hp
  constructor
  · show (ps.map (· * 0.985)).getD i 0 ≤ ps.getD i 0
    rw [getD_map_mul]
    linarith
  · show ps.getD i 0 ≤ (ps.map (· * 1.015)).getD i 0
    rw [getD_map_mul]
    linarith

/-- C7 amended: every `PriceSeries` the system produces carries
`high[i] = price[i] * 1.015` and `low[i] = price[i] * 0.985` at every
index, and the invariant `low[i] ≤ price[i] ≤ high[i]` holds at every
index whose price is nonnegative (the code never checks sign, so a
crafted negative quote violates the unrestricted invariant; see the
counterexample). -/
theorem band_invariant (metal currency ak : String) (b : TimeframeBody) (er : ℚ)
    (mock : PriceData) (gauss : ℕ → ℕ → ℚ) (fmt : ℤ → String) (today : ℤ) (rng : ℕ)
    (hs : b.success = true)
    (hv : parseTimeframe (symbolOf metal) b.rates ≠ []) :
    bandProp (get_historical_data metal currency (some ak) (.ok 200 (some b)) er mock) ∧
    bandProp (generate_mock_data gauss fmt today metal currency rng) := by
  constructor
  · rw [get_historical_data_ok metal currency ak b er mock hs hv]
    show bandProp ⟨(parseTimeframe (symbolOf metal) b.rates).map Prod.fst,
      (if currency = "INR"
        then ((parseTimeframe (symbolOf metal) b.rates).map Prod.snd).map (· * er)
        else (parseTimeframe (symbolOf metal) b.rates).map Prod.snd),
      (if currency = "INR"
        then ((parseTimeframe (symbolOf metal) b.rates).map Prod.snd).map (· * er)
        else (parseTimeframe (symbolOf metal) b.rates).map Prod.snd).map (· * 1.015),
      (if currency = "INR"
        then ((parseTimeframe (symbolOf metal) b.rates).map Prod.snd).map (· * er)
        else (parseTimeframe (symbolOf metal) b.rates).map Prod.snd).map (· * 0.985)⟩
    by_cases hc : currency = "INR"
    · rw [if_pos hc]
      exact bandProp_bands _ _
    · rw [if_neg hc]
      exact bandProp_bands _ _
  · exact bandProp_bands _ _

/-- C7 amendment witness: the amended theorem applied to a concrete
accepted payload with a positive quote, together with a concrete mock
generation. -/
theorem band_invariant_witness :
    bandProp (get_historical_data "gold" "USD" (some "k")
      (.ok 200 (some ⟨true, [("2024-01-01", [("USDXAU", 2)])]⟩)) 1 ⟨[], [], [], []⟩) ∧
    bandProp (generate_mock_data (fun _ _ => 0) (fun z => toString z) 0 "gold" "USD" 0) :=
  band_invariant "gold" "USD" "k" ⟨true, [("2024-01-01", [("USDXAU", 2)])]⟩ 1
    ⟨[], [], [], []⟩ (fun _ _ => 0) (fun z => toString z) 0 0 rfl (by decide)

end GoldAlert
